import Mathlib

/-!
Shallow embedding of the AVM-Action GitHub Action (Python sources under
.github/actions/avm-action/src/): config.py, terraform_runner.py,
azure_auth.py and main.py.  Strings are modelled as Lean Strings (ASCII
use only in this code base), Python `os.environ` as a partial map from
variable names to values (`none` = unset), Python dicts that preserve
insertion order as association lists, and subprocess execution as an
explicit executor oracle together with a record of every spawn call.
-/

deriving instance DecidableEq for Except

namespace AVM

/-- An environment snapshot: a map from variable name to value, `none`
meaning the variable is unset. -/
abbrev Env := String → Option String

/-- Python truthiness of an optional string returned by environ.get:
None and the empty string are falsy. -/
def truthyOpt : Option String → Bool
  | none => false
  | some s => s ≠ ""

/-- Python `a or b` on two environ.get results: the first truthy value,
otherwise the second value. -/
def pyOr (a b : Option String) : Option String :=
  if truthyOpt a then a else b

/-- Characters stripped by Python str.strip (whitespace, ASCII model). -/
def isPySpace (c : Char) : Bool :=
  c = ' ' || c = '\t' || c = '\n' || c = '\r' || c = '\x0b' || c = '\x0c'

/-- Python str.strip on the ASCII model. -/
def pyStrip (s : String) : String :=
  ⟨((s.data.dropWhile isPySpace).reverse.dropWhile isPySpace).reverse⟩

/-- Python str.lower on the ASCII model. -/
def pyLower (s : String) : String :=
  ⟨s.data.map Char.toLower⟩

/-- Python str.upper on the ASCII model. -/
def pyUpper (s : String) : String :=
  ⟨s.data.map Char.toUpper⟩

/-- Python str.isalnum on the ASCII model: non-empty and all characters
alphanumeric. -/
def pyIsAlnum (s : String) : Bool :=
  !s.isEmpty && s.data.all Char.isAlphanum

/-- Python str.replace with single-character needle and empty
replacement: remove every occurrence of the character. -/
def removeChar (c : Char) (s : String) : String :=
  ⟨s.data.filter (fun x => x ≠ c)⟩

/-- Python str.replace with single-character needle and
single-character replacement. -/
def replaceChar (c d : Char) (s : String) : String :=
  ⟨s.data.map (fun x => if x = c then d else x)⟩

/-- Python str.split on a single-character separator (list-of-chars
level; "".split(sep) = [""]). -/
def splitCharAux (c : Char) : List Char → List (List Char)
  | [] => [[]]
  | x :: xs =>
    let r := splitCharAux c xs
    if x = c then [] :: r
    else
      match r with
      | [] => [[x]]
      | h :: t => (x :: h) :: t

/-- Python str.split on a single-character separator, at String level. -/
def pySplit (c : Char) (s : String) : List String :=
  (splitCharAux c s.data).map (fun l => ⟨l⟩)

/-- Python str.split(sep, 1) on a single-character separator: split at
the first occurrence only; `none` when the separator is absent. -/
def splitOnceAux (c : Char) : List Char → Option (List Char × List Char)
  | [] => none
  | x :: xs =>
    if x = c then some ([], xs)
    else (splitOnceAux c xs).map (fun p => (x :: p.1, p.2))

/-- Python str.split(sep, 1) at String level. -/
def pySplitOnce (c : Char) (s : String) : Option (String × String) :=
  (splitOnceAux c s.data).map (fun p => (⟨p.1⟩, ⟨p.2⟩))

/-- Python dict assignment d[k] = v on an insertion-ordered association
list: overwrite in place when the key exists, else append. -/
def dictSet (d : List (String × String)) (k v : String) : List (String × String) :=
  if (d.map Prod.fst).contains k then
    d.map (fun kv => if kv.1 = k then (k, v) else kv)
  else d ++ [(k, v)]

/-! ## config.py -/

/-- TerraformCommand enum from config.py. -/
inductive TerraformCommand
  | init
  | validate
  | plan
  | apply
  | destroy
  deriving DecidableEq, Repr

/-- The .value string of a TerraformCommand enum member. -/
def TerraformCommand.value : TerraformCommand → String
  | .init => "init"
  | .validate => "validate"
  | .plan => "plan"
  | .apply => "apply"
  | .destroy => "destroy"

/-- LogLevel enum from config.py. -/
inductive LogLevel
  | debug
  | info
  | warning
  | error
  deriving DecidableEq, Repr

/-- AzureConfig dataclass from config.py. -/
structure AzureConfig where
  subscription_id : String := ""
  tenant_id : String := ""
  client_id : String := ""
  deriving DecidableEq, Repr

/-- ActionConfig dataclass from config.py. -/
structure ActionConfig where
  tf_directory : String := "."
  tfvars_files : List String := []
  backend_config_file : String := ""
  command : TerraformCommand := .plan
  workspace : String := "default"
  azure : AzureConfig := {}
  var_overrides : List (String × String) := []
  log_level : LogLevel := .info
  deriving DecidableEq, Repr

/-- ActionConfig.validate from config.py: collects error messages; the
isinstance check on command is statically true in the embedding.
Workspace check: if workspace is truthy and workspace with "-" and "_"
removed is not alphanumeric, it is invalid. -/
def ActionConfig.validate (c : ActionConfig) : List String :=
  let errors : List String := []
  let errors :=
    if c.tf_directory = "" then errors ++ ["tf_directory cannot be empty"] else errors
  let errors :=
    if c.workspace ≠ "" && !(pyIsAlnum (removeChar '_' (removeChar '-' c.workspace))) then
      errors ++ ["Invalid workspace name: " ++ c.workspace]
    else errors
  errors

/-- The underscore helper parse-tfvars-files from config.py: split a
comma-separated string, strip entries, keep non-empty ones. -/
def parseTfvarsFiles (value : String) : List String :=
  if value = "" then []
  else ((pySplit ',' value).map pyStrip).filter (fun f => f ≠ "")

/-- The key=value fallback branch of the var-overrides input parser in
config.py (the JSON branch is the out-of-scope string-ingestion
collaborator of spec section 1; no claim depends on it, and inputs used
here are not valid JSON objects): replace newlines by commas, split on
commas, and for each pair containing "=" set key.strip() to
value.strip() with dict overwrite semantics. -/
def parseVarOverrides (value : String) : List (String × String) :=
  if value = "" then []
  else
    (pySplit ',' (replaceChar '\n' ',' value)).foldl
      (fun d pair =>
        let pair := pyStrip pair
        match pySplitOnce '=' pair with
        | some (k, v) => dictSet d (pyStrip k) (pyStrip v)
        | none => d)
      []

/-- The underscore helper parse-command from config.py: lowercase and
strip, then look the value up in the TerraformCommand enum; unknown
values raise ValueError with a message listing the valid commands. -/
def parseCommand (value : String) : Except String TerraformCommand :=
  let v := pyStrip (pyLower value)
  if v = "init" then .ok .init
  else if v = "validate" then .ok .validate
  else if v = "plan" then .ok .plan
  else if v = "apply" then .ok .apply
  else if v = "destroy" then .ok .destroy
  else
    .error ("Invalid command '" ++ v ++
      "'. Valid commands: ['init', 'validate', 'plan', 'apply', 'destroy']")

/-- The underscore helper parse-log-level from config.py: uppercase and
strip, fall back to INFO on anything unrecognized. -/
def parseLogLevel (value : String) : LogLevel :=
  let v := pyStrip (pyUpper value)
  if v = "DEBUG" then .debug
  else if v = "INFO" then .info
  else if v = "WARNING" then .warning
  else if v = "ERROR" then .error
  else .info

/-- get_input from config.py: read INPUT_<NAME> from the environment
with a default for the unset case (the name argument is given already
uppercased here). -/
def getInput (e : Env) (name : String) (d : String) : String :=
  (e ("INPUT_" ++ name)).getD d

/-- load_config_from_env from config.py.  The only step that can raise
is command parsing (ValueError), modelled as the error case. -/
def load_config_from_env (e : Env) : Except String ActionConfig :=
  let azure : AzureConfig :=
    { subscription_id := getInput e "AZURE_SUBSCRIPTION_ID" ""
      tenant_id := getInput e "AZURE_TENANT_ID" ""
      client_id := getInput e "AZURE_CLIENT_ID" "" }
  match parseCommand (getInput e "COMMAND" "plan") with
  | .error m => .error m
  | .ok cmd =>
    .ok
      { tf_directory := getInput e "TF_DIRECTORY" "."
        tfvars_files := parseTfvarsFiles (getInput e "TFVARS_FILES" "")
        backend_config_file := getInput e "BACKEND_CONFIG_FILE" ""
        command := cmd
        workspace := getInput e "WORKSPACE" "default"
        azure := azure
        var_overrides := parseVarOverrides (getInput e "VAR_OVERRIDES" "")
        log_level := parseLogLevel (getInput e "LOG_LEVEL" "INFO") }

/-! ## terraform_runner.py -/

/-- CommandResult dataclass from terraform_runner.py. -/
structure CommandResult where
  return_code : Int
  stdout : String
  stderr : String
  command : List String
  deriving DecidableEq, Repr

/-- One subprocess.run call made by run_command in Real mode: the
argument vector, the working directory in effect (run_command has
changed into the configured Terraform directory), and the env keyword
argument passed to subprocess.run.  The source passes no env argument,
so the field records none (inherit the parent environment). -/
structure SpawnCall where
  argv : List String
  cwd : String
  envMapping : Option (List (String × String))
  deriving DecidableEq, Repr

/-- An executor oracle standing for the external tool: maps an argument
vector to the (return code, stdout, stderr) the real process would
produce. -/
abbrev Exec := List String → Int × String × String

/-- The var-file flag added for one tfvars file. -/
def varFileFlag (f : String) : String := "-var-file=" ++ f

/-- The var flag added for one override entry. -/
def varFlag (kv : String × String) : String := "-var=" ++ kv.1 ++ "=" ++ kv.2

/-- TerraformRunner.build_init_command. -/
def build_init_command (tp : String) (c : ActionConfig) : List String :=
  let cmd := [tp, "init", "-input=false"]
  if c.backend_config_file ≠ "" then
    cmd ++ ["-backend-config=" ++ c.backend_config_file]
  else cmd

/-- TerraformRunner.build_validate_command. -/
def build_validate_command (tp : String) : List String :=
  [tp, "validate"]

/-- TerraformRunner.build_plan_command (out_file defaults to None; a
falsy out_file, None or empty, adds no -out flag). -/
def build_plan_command (tp : String) (c : ActionConfig) (out_file : Option String) :
    List String :=
  let cmd := [tp, "plan", "-input=false"]
  let cmd := c.tfvars_files.foldl (fun acc f => acc ++ [varFileFlag f]) cmd
  let cmd := c.var_overrides.foldl (fun acc kv => acc ++ [varFlag kv]) cmd
  if truthyOpt out_file then cmd ++ ["-out=" ++ out_file.getD ""] else cmd

/-- TerraformRunner.build_apply_command (plan_file defaults to None; a
truthy plan_file suppresses all variable flags and is appended as the
sole trailing argument). -/
def build_apply_command (tp : String) (c : ActionConfig) (plan_file : Option String) :
    List String :=
  let cmd := [tp, "apply", "-input=false", "-auto-approve"]
  if truthyOpt plan_file then cmd ++ [plan_file.getD ""]
  else
    let cmd := c.tfvars_files.foldl (fun acc f => acc ++ [varFileFlag f]) cmd
    c.var_overrides.foldl (fun acc kv => acc ++ [varFlag kv]) cmd

/-- TerraformRunner.build_destroy_command. -/
def build_destroy_command (tp : String) (c : ActionConfig) : List String :=
  let cmd := [tp, "destroy", "-input=false", "-auto-approve"]
  let cmd := c.tfvars_files.foldl (fun acc f => acc ++ [varFileFlag f]) cmd
  c.var_overrides.foldl (fun acc kv => acc ++ [varFlag kv]) cmd

/-- TerraformRunner.build_workspace_command. -/
def build_workspace_command (tp : String) (c : ActionConfig) : List String :=
  [tp, "workspace", "select", "-or-create=true", c.workspace]

/-- TerraformRunner.build_command: dispatch on the command enum (every
enum member has a builder, so the unsupported-command ValueError branch
is unreachable); plan and apply builders are invoked with their optional
argument defaulted to None. -/
def build_command (tp : String) (c : ActionConfig) : TerraformCommand → List String
  | .init => build_init_command tp c
  | .validate => build_validate_command tp
  | .plan => build_plan_command tp c none
  | .apply => build_apply_command tp c none
  | .destroy => build_destroy_command tp c

/-- TerraformRunner.run_command: in dry-run mode return code 0 with the
would-execute banner and spawn nothing; otherwise chdir to the
configured directory, spawn exactly one process via the executor (no
env keyword argument) and wrap its outcome.  Returns the CommandResult
together with the list of spawn calls performed. -/
def run_command (dry : Bool) (tfdir : String) (ex : Exec) (cmd : List String) :
    CommandResult × List SpawnCall :=
  if dry then
    ({ return_code := 0
       stdout := "[DRY RUN] Would execute: " ++ String.intercalate " " cmd
       stderr := ""
       command := cmd }, [])
  else
    let r := ex cmd
    ({ return_code := r.1, stdout := r.2.1, stderr := r.2.2, command := cmd },
     [{ argv := cmd, cwd := tfdir, envMapping := none }])

/-- Trace of one TerraformRunner.run call: the prerequisite workspace
step (argument vector and result) when one was issued, the main command
step when it was reached, the final CommandResult, and all spawn calls. -/
structure RunTrace where
  workspaceStep : Option (List String × CommandResult)
  mainStep : Option (List String × CommandResult)
  result : CommandResult
  spawns : List SpawnCall
  deriving DecidableEq, Repr

/-- TerraformRunner.run: when the workspace is truthy and not "default",
issue the workspace select-or-create command first and abort with its
result if it failed; otherwise build and run the configured command. -/
def TerraformRunner.run (tp : String) (c : ActionConfig) (dry : Bool) (ex : Exec) :
    RunTrace :=
  if c.workspace ≠ "" && c.workspace ≠ "default" then
    let wcmd := build_workspace_command tp c
    let w := run_command dry c.tf_directory ex wcmd
    if w.1.return_code ≠ 0 then
      { workspaceStep := some (wcmd, w.1), mainStep := none
        result := w.1, spawns := w.2 }
    else
      let mcmd := build_command tp c c.command
      let m := run_command dry c.tf_directory ex mcmd
      { workspaceStep := some (wcmd, w.1), mainStep := some (mcmd, m.1)
        result := m.1, spawns := w.2 ++ m.2 }
  else
    let mcmd := build_command tp c c.command
    let m := run_command dry c.tf_directory ex mcmd
    { workspaceStep := none, mainStep := some (mcmd, m.1)
      result := m.1, spawns := m.2 }

/-! ## azure_auth.py -/

/-- AuthMethod enum from azure_auth.py. -/
inductive AuthMethod
  | oidc
  | service_principal
  | managed_identity
  | cli
  deriving DecidableEq, Repr

/-- AzureCredentials dataclass from azure_auth.py. -/
structure AzureCredentials where
  subscription_id : String
  tenant_id : String
  client_id : String := ""
  client_secret : String := ""
  token : String := ""
  auth_method : AuthMethod := .cli
  deriving DecidableEq, Repr

/-- AzureAuthenticator construction state from azure_auth.py (client_id
already coalesced to the empty string when absent). -/
structure AzureAuthenticator where
  subscription_id : String
  tenant_id : String
  client_id : String := ""
  deriving DecidableEq, Repr

/-- AzureAuthenticator.detect_auth_method: first-match precedence over
the environment snapshot. -/
def detect_auth_method (e : Env) : AuthMethod :=
  if truthyOpt (e "ACTIONS_ID_TOKEN_REQUEST_TOKEN") then .oidc
  else if truthyOpt (e "AZURE_CLIENT_SECRET") || truthyOpt (e "ARM_CLIENT_SECRET") then
    .service_principal
  else if truthyOpt (e "MSI_ENDPOINT") || truthyOpt (e "IDENTITY_ENDPOINT") then
    .managed_identity
  else .cli

/-- AzureAuthenticator.authenticate_service_principal: read the secret
from AZURE_CLIENT_SECRET or ARM_CLIENT_SECRET (first truthy wins), raise
ValueError naming both variables when neither is truthy, otherwise
return credentials tagged service_principal. -/
def authenticate_service_principal (a : AzureAuthenticator) (e : Env) :
    Except String AzureCredentials :=
  let client_secret := pyOr (e "AZURE_CLIENT_SECRET") (e "ARM_CLIENT_SECRET")
  if !truthyOpt client_secret then
    .error ("Service principal authentication requires AZURE_CLIENT_SECRET " ++
      "or ARM_CLIENT_SECRET environment variable.")
  else
    .ok
      { subscription_id := a.subscription_id
        tenant_id := a.tenant_id
        client_id := a.client_id
        client_secret := client_secret.getD ""
        auth_method := .service_principal }

/-- AzureAuthenticator.authenticate_cli: always succeeds with no secret
material. -/
def authenticate_cli (a : AzureAuthenticator) : AzureCredentials :=
  { subscription_id := a.subscription_id
    tenant_id := a.tenant_id
    client_id := a.client_id
    auth_method := .cli }

/-- AzureAuthenticator.authenticate: dispatch on the detected method;
OIDC and managed identity raise NotImplementedError with a workaround
hint. -/
def authenticate (a : AzureAuthenticator) (e : Env) : Except String AzureCredentials :=
  match detect_auth_method e with
  | .oidc =>
    .error ("OIDC authentication is not yet implemented. " ++
      "As a workaround, use the 'azure/login' action before calling avm-action. " ++
      "See docs/architecture.md for planned implementation.")
  | .service_principal => authenticate_service_principal a e
  | .managed_identity =>
    .error ("Managed Identity authentication not yet implemented. " ++
      "As a workaround, use the 'azure/login' action with managed identity, " ++
      "or use CLI authentication by running 'az login' first.")
  | .cli => .ok (authenticate_cli a)

/-- AzureAuthenticator.set_terraform_env_vars: the insertion-ordered
provider environment mapping built from a credential. -/
def set_terraform_env_vars (cr : AzureCredentials) : List (String × String) :=
  let env_vars := [("ARM_SUBSCRIPTION_ID", cr.subscription_id),
                   ("ARM_TENANT_ID", cr.tenant_id)]
  let env_vars :=
    if cr.client_id ≠ "" then env_vars ++ [("ARM_CLIENT_ID", cr.client_id)] else env_vars
  let env_vars :=
    if cr.client_secret ≠ "" then env_vars ++ [("ARM_CLIENT_SECRET", cr.client_secret)]
    else env_vars
  if cr.token ≠ "" then
    env_vars ++ [("ARM_OIDC_TOKEN", cr.token), ("ARM_USE_OIDC", "true")]
  else env_vars

/-! ## main.py -/

/-- TerraformRunner internal find-terraform helper: the shutil.which
lookup result is a parameter (none when the binary is absent, in which
case RuntimeError is raised with the tool-not-found message). -/
def find_terraform (which : Option String) : Except String String :=
  match which with
  | some p => .ok p
  | none =>
    .error ("Terraform binary not found in PATH. " ++
      "Please ensure Terraform is installed.")

/-- Observable outcome of one main() invocation: the returned exit
code, the github_output name-value pairs written in order, and every
process spawn performed. -/
structure MainOutcome where
  exitCode : Int
  outputs : List (String × String)
  spawns : List SpawnCall
  deriving DecidableEq, Repr

/-- main from main.py, generalized over the dry_run flag that the
source currently hardcodes to True when constructing TerraformRunner
(the downstream exit-code propagation branch is live source code either
way).  Load and validate the config (ValueError and validation errors
give exit 1), construct the runner (a tool-not-found RuntimeError is
caught: dry-run outputs are written and main returns 0), run, write
outputs, and return the result code (propagated unchanged when
non-zero). -/
def mainWith (dry : Bool) (tool : Option String) (ex : Exec) (e : Env) : MainOutcome :=
  match load_config_from_env e with
  | .error _ => { exitCode := 1, outputs := [], spawns := [] }
  | .ok config =>
    if config.validate ≠ [] then { exitCode := 1, outputs := [], spawns := [] }
    else
      match find_terraform tool with
      | .error _ =>
        { exitCode := 0
          outputs := [("plan_output", "Terraform not installed - dry run mode"),
                      ("state_summary", "No state changes (dry run)")]
          spawns := [] }
      | .ok tp =>
        let t := TerraformRunner.run tp config dry ex
        { exitCode := if t.result.return_code ≠ 0 then t.result.return_code else 0
          outputs := [("plan_output", t.result.stdout),
                      ("state_summary", "Exit code: " ++ toString t.result.return_code)]
          spawns := t.spawns }

/-- main as shipped: dry_run hardcoded to True. -/
def mainShipped (tool : Option String) (ex : Exec) (e : Env) : MainOutcome :=
  mainWith true tool ex e

/-- The all-unset environment snapshot. -/
def noEnv : Env := fun _ => none

/-- An executor whose every invocation succeeds with empty output. -/
def zeroExec : Exec := fun _ => (0, "", "")

/-- An executor whose every invocation fails with exit code 2. -/
def failExec2 : Exec := fun _ => (2, "", "boom")

/-- The environment variables whose values constitute the ambient
credential state inspected by the credential resolver. -/
def credKeys : List String :=
  ["ACTIONS_ID_TOKEN_REQUEST_TOKEN", "AZURE_CLIENT_SECRET", "ARM_CLIENT_SECRET",
   "MSI_ENDPOINT", "IDENTITY_ENDPOINT"]

/-- Environment with every credential-detection signal set at once. -/
def allSignalsEnv : Env := fun k =>
  if k ∈ credKeys then some "x" else none

/-- Environment with a service-principal secret and a managed-identity
endpoint set, but no OIDC token. -/
def spMsiEnv : Env := fun k =>
  if k = "AZURE_CLIENT_SECRET" || k = "MSI_ENDPOINT" then some "x" else none

/-- Environment with only ARM_CLIENT_SECRET set. -/
def secretEnv : Env := fun k =>
  if k = "ARM_CLIENT_SECRET" then some "hunter2" else none

/-- A sample configuration with two tfvars files and one override. -/
def cfgW : ActionConfig :=
  { tfvars_files := ["dev.tfvars", "common.tfvars"], var_overrides := [("env", "dev")] }

/-- A sample configuration selecting the staging workspace. -/
def cfgStag : ActionConfig := { workspace := "staging" }

/-- A sample authenticator. -/
def authW : AzureAuthenticator :=
  { subscription_id := "sub", tenant_id := "ten", client_id := "cli" }

/-- A sample credential carrying a bearer token and no secret. -/
def credW : AzureCredentials :=
  { subscription_id := "sub", tenant_id := "ten", token := "tok" }

/-! ## Helper lemmas -/

/-- Folding append-of-singleton over a list is append of the map. -/
theorem foldl_append_eq {α β : Type} (g : α → β) (l : List α) (init : List β) :
    l.foldl (fun acc x => acc ++ [g x]) init = init ++ l.map g := by
  induction l generalizing init with
  | nil => simp
  | cons x xs ih => simp [List.foldl_cons, ih, List.append_assoc]

/-- Closed form of build_plan_command. -/
theorem build_plan_command_eq (tp : String) (c : ActionConfig) (out_file : Option String) :
    build_plan_command tp c out_file =
      [tp, "plan", "-input=false"] ++ c.tfvars_files.map varFileFlag ++
        c.var_overrides.map varFlag ++
        (if truthyOpt out_file then ["-out=" ++ out_file.getD ""] else []) := by
  simp only [build_plan_command, foldl_append_eq]
  split <;> simp [List.append_assoc]

/-- Closed form of build_apply_command without a plan file. -/
theorem build_apply_command_none_eq (tp : String) (c : ActionConfig) :
    build_apply_command tp c none =
      [tp, "apply", "-input=false", "-auto-approve"] ++ c.tfvars_files.map varFileFlag ++
        c.var_overrides.map varFlag := by
  simp [build_apply_command, truthyOpt, foldl_append_eq, List.append_assoc]

/-- Closed form of build_apply_command with a truthy plan file. -/
theorem build_apply_command_some_eq (tp : String) (c : ActionConfig) (p : String)
    (hp : p ≠ "") :
    build_apply_command tp c (some p) =
      [tp, "apply", "-input=false", "-auto-approve", p] := by
  simp [build_apply_command, truthyOpt, hp]

/-- Closed form of build_destroy_command. -/
theorem build_destroy_command_eq (tp : String) (c : ActionConfig) :
    build_destroy_command tp c =
      [tp, "destroy", "-input=false", "-auto-approve"] ++ c.tfvars_files.map varFileFlag ++
        c.var_overrides.map varFlag := by
  simp [build_destroy_command, foldl_append_eq, List.append_assoc]

/-! ## Claim theorems -/

/-- C5: detect_auth_method is total over environment snapshots and
follows the first-match precedence OIDC, then ServicePrincipal (either
secret variable), then ManagedIdentity (either endpoint variable), then
CliSession; in particular OIDC beats a simultaneously present
service-principal secret, and a secret beats managed-identity signals. -/
theorem c5_detect_method_precedence (e : Env) :
    (truthyOpt (e "ACTIONS_ID_TOKEN_REQUEST_TOKEN") = true →
      detect_auth_method e = AuthMethod.oidc) ∧
    (truthyOpt (e "ACTIONS_ID_TOKEN_REQUEST_TOKEN") = false →
      (truthyOpt (e "AZURE_CLIENT_SECRET") = true ∨
        truthyOpt (e "ARM_CLIENT_SECRET") = true) →
      detect_auth_method e = AuthMethod.service_principal) ∧
    (truthyOpt (e "ACTIONS_ID_TOKEN_REQUEST_TOKEN") = false →
      truthyOpt (e "AZURE_CLIENT_SECRET") = false →
      truthyOpt (e "ARM_CLIENT_SECRET") = false →
      (truthyOpt (e "MSI_ENDPOINT") = true ∨
        truthyOpt (e "IDENTITY_ENDPOINT") = true) →
      detect_auth_method e = AuthMethod.managed_identity) ∧
    (truthyOpt (e "ACTIONS_ID_TOKEN_REQUEST_TOKEN") = false →
      truthyOpt (e "AZURE_CLIENT_SECRET") = false →
      truthyOpt (e "ARM_CLIENT_SECRET") = false →
      truthyOpt (e "MSI_ENDPOINT") = false →
      truthyOpt (e "IDENTITY_ENDPOINT") = false →
      detect_auth_method e = AuthMethod.cli) := by
  refine ⟨?_, ?_, ?_, ?_⟩ <;> intros <;> simp_all [detect_auth_method]

/-- Witness for C5: with every signal present OIDC wins; with a
service-principal secret and a managed-identity endpoint present,
ServicePrincipal wins. -/
theorem c5_detect_method_precedence_witness :
    detect_auth_method allSignalsEnv = AuthMethod.oidc ∧
    detect_auth_method spMsiEnv = AuthMethod.service_principal :=
  ⟨(c5_detect_method_precedence allSignalsEnv).1 (by decide),
   (c5_detect_method_precedence spMsiEnv).2.1 (by decide) (Or.inl (by decide))⟩

/-- C6: build apply with a (truthy) plan-artifact path produces exactly
the fixed prefix plus the artifact, so no variable-definition-file and
no override flags; build apply without one appends one flag per tfvars
file and one per override, and hence includes them whenever present. -/
theorem c6_apply_plan_artifact (tp : String) (c : ActionConfig) (p : String)
    (hp : p ≠ "") :
    build_apply_command tp c (some p) = [tp, "apply", "-input=false", "-auto-approve", p] ∧
    build_apply_command tp c none =
      [tp, "apply", "-input=false", "-auto-approve"] ++ c.tfvars_files.map varFileFlag ++
        c.var_overrides.map varFlag ∧
    (∀ f ∈ c.tfvars_files, varFileFlag f ∈ build_apply_command tp c none) ∧
    (∀ kv ∈ c.var_overrides, varFlag kv ∈ build_apply_command tp c none) :=
  ⟨build_apply_command_some_eq tp c p hp,
   build_apply_command_none_eq tp c,
   fun f hf => by
    rw [build_apply_command_none_eq]
    exact List.mem_append_left _ (List.mem_append_right _ (List.mem_map_of_mem _ hf)),
   fun kv hkv => by
    rw [build_apply_command_none_eq]
    exact List.mem_append_right _ (List.mem_map_of_mem _ hkv)⟩

/-- Witness for C6 at a configuration with two tfvars files and one
override and the plan artifact "tfplan". -/
theorem c6_apply_plan_artifact_witness :
    build_apply_command "terraform" cfgW (some "tfplan") =
      ["terraform", "apply", "-input=false", "-auto-approve", "tfplan"] ∧
    build_apply_command "terraform" cfgW none =
      ["terraform", "apply", "-input=false", "-auto-approve"] ++
        cfgW.tfvars_files.map varFileFlag ++ cfgW.var_overrides.map varFlag ∧
    (∀ f ∈ cfgW.tfvars_files, varFileFlag f ∈ build_apply_command "terraform" cfgW none) ∧
    (∀ kv ∈ cfgW.var_overrides, varFlag kv ∈ build_apply_command "terraform" cfgW none) :=
  c6_apply_plan_artifact "terraform" cfgW "tfplan" (by decide)

/-- C7: for plan (with or without an output file), apply without a plan
file, and destroy, the built vector is exactly tool path, sub-command,
the prompt-disabling flag (plus auto-approve for apply and destroy),
then the var-file flags in the configured order, then the override
flags, then any output-file flag last; in particular var-file flags
always precede override flags. -/
theorem c7_flag_ordering (tp : String) (c : ActionConfig) (outf : String)
    (houtf : outf ≠ "") :
    build_plan_command tp c none =
      [tp, "plan", "-input=false"] ++ c.tfvars_files.map varFileFlag ++
        c.var_overrides.map varFlag ∧
    build_plan_command tp c (some outf) =
      [tp, "plan", "-input=false"] ++ c.tfvars_files.map varFileFlag ++
        c.var_overrides.map varFlag ++ ["-out=" ++ outf] ∧
    build_apply_command tp c none =
      [tp, "apply", "-input=false", "-auto-approve"] ++ c.tfvars_files.map varFileFlag ++
        c.var_overrides.map varFlag ∧
    build_destroy_command tp c =
      [tp, "destroy", "-input=false", "-auto-approve"] ++ c.tfvars_files.map varFileFlag ++
        c.var_overrides.map varFlag := by
  refine ⟨?_, ?_, build_apply_command_none_eq tp c, build_destroy_command_eq tp c⟩
  · simp [build_plan_command_eq, truthyOpt]
  · simp [build_plan_command_eq, truthyOpt, houtf]

/-- Witness for C7 at a configuration with two tfvars files and one
override and output file "tfplan". -/
theorem c7_flag_ordering_witness :
    build_plan_command "terraform" cfgW none =
      ["terraform", "plan", "-input=false"] ++ cfgW.tfvars_files.map varFileFlag ++
        cfgW.var_overrides.map varFlag ∧
    build_plan_command "terraform" cfgW (some "tfplan") =
      ["terraform", "plan", "-input=false"] ++ cfgW.tfvars_files.map varFileFlag ++
        cfgW.var_overrides.map varFlag ++ ["-out=" ++ "tfplan"] ∧
    build_apply_command "terraform" cfgW none =
      ["terraform", "apply", "-input=false", "-auto-approve"] ++
        cfgW.tfvars_files.map varFileFlag ++ cfgW.var_overrides.map varFlag ∧
    build_destroy_command "terraform" cfgW =
      ["terraform", "destroy", "-input=false", "-auto-approve"] ++
        cfgW.tfvars_files.map varFileFlag ++ cfgW.var_overrides.map varFlag :=
  c7_flag_ordering "terraform" cfgW "tfplan" (by decide)

/-- C8: service-principal authentication with neither accepted secret
variable truthy fails with the ValueError message naming both accepted
variable spellings; with AZURE_CLIENT_SECRET present the returned
credential carries exactly that secret and the service_principal tag,
and likewise for ARM_CLIENT_SECRET when AZURE_CLIENT_SECRET is absent. -/
theorem c8_service_principal_secret (a : AzureAuthenticator) (e : Env) :
    (truthyOpt (e "AZURE_CLIENT_SECRET") = false →
      truthyOpt (e "ARM_CLIENT_SECRET") = false →
      authenticate_service_principal a e =
        .error ("Service principal authentication requires AZURE_CLIENT_SECRET " ++
          "or ARM_CLIENT_SECRET environment variable.") ∧
      "AZURE_CLIENT_SECRET".data <:+:
        ("Service principal authentication requires AZURE_CLIENT_SECRET " ++
          "or ARM_CLIENT_SECRET environment variable.").data ∧
      "ARM_CLIENT_SECRET".data <:+:
        ("Service principal authentication requires AZURE_CLIENT_SECRET " ++
          "or ARM_CLIENT_SECRET environment variable.").data) ∧
    (∀ s, e "AZURE_CLIENT_SECRET" = some s → s ≠ "" →
      authenticate_service_principal a e =
        .ok { subscription_id := a.subscription_id, tenant_id := a.tenant_id,
              client_id := a.client_id, client_secret := s,
              auth_method := AuthMethod.service_principal }) ∧
    (∀ s, truthyOpt (e "AZURE_CLIENT_SECRET") = false →
      e "ARM_CLIENT_SECRET" = some s → s ≠ "" →
      authenticate_service_principal a e =
        .ok { subscription_id := a.subscription_id, tenant_id := a.tenant_id,
              client_id := a.client_id, client_secret := s,
              auth_method := AuthMethod.service_principal }) := by
  refine ⟨fun h1 h2 => ⟨?_, ?_, ?_⟩, fun s hs hsne => ?_, fun s h1 hs hsne => ?_⟩
  · simp [authenticate_service_principal, pyOr, h1, h2]
  · exact ⟨"Service principal authentication requires ".data,
      " or ARM_CLIENT_SECRET environment variable.".data, by decide⟩
  · exact ⟨"Service principal authentication requires AZURE_CLIENT_SECRET or ".data,
      " environment variable.".data, by decide⟩
  · have hp : pyOr (e "AZURE_CLIENT_SECRET") (e "ARM_CLIENT_SECRET") = some s := by
      simp [pyOr, truthyOpt, hs, hsne]
    simp [authenticate_service_principal, hp, truthyOpt, hsne]
  · have hp : pyOr (e "AZURE_CLIENT_SECRET") (e "ARM_CLIENT_SECRET") = some s := by
      simp [pyOr, h1, hs]
    simp [authenticate_service_principal, hp, truthyOpt, hsne]

/-- Witness for C8: with no secret set the error names both variables;
with only ARM_CLIENT_SECRET set the credential carries its value. -/
theorem c8_service_principal_secret_witness :
    (authenticate_service_principal authW noEnv =
      .error ("Service principal authentication requires AZURE_CLIENT_SECRET " ++
        "or ARM_CLIENT_SECRET environment variable.") ∧
      "AZURE_CLIENT_SECRET".data <:+:
        ("Service principal authentication requires AZURE_CLIENT_SECRET " ++
          "or ARM_CLIENT_SECRET environment variable.").data ∧
      "ARM_CLIENT_SECRET".data <:+:
        ("Service principal authentication requires AZURE_CLIENT_SECRET " ++
          "or ARM_CLIENT_SECRET environment variable.").data) ∧
    authenticate_service_principal authW secretEnv =
      .ok { subscription_id := "sub", tenant_id := "ten", client_id := "cli",
            client_secret := "hunter2", auth_method := AuthMethod.service_principal } :=
  ⟨(c8_service_principal_secret authW noEnv).1 rfl rfl,
   (c8_service_principal_secret authW secretEnv).2.2 "hunter2" rfl rfl (by decide)⟩

/-- C9: the provider environment projection of a credential always
contains the subscription and tenant entries; it contains the client-id
key iff the client id is non-empty, the secret key iff the secret is
non-empty (so it never introduces a secret entry when none was set),
and the token and use-OIDC keys exactly when a bearer token is present. -/
theorem c9_env_projection (cr : AzureCredentials) :
    ("ARM_SUBSCRIPTION_ID", cr.subscription_id) ∈ set_terraform_env_vars cr ∧
    ("ARM_TENANT_ID", cr.tenant_id) ∈ set_terraform_env_vars cr ∧
    ("ARM_CLIENT_ID" ∈ (set_terraform_env_vars cr).map Prod.fst ↔ cr.client_id ≠ "") ∧
    ("ARM_CLIENT_SECRET" ∈ (set_terraform_env_vars cr).map Prod.fst ↔
      cr.client_secret ≠ "") ∧
    ("ARM_OIDC_TOKEN" ∈ (set_terraform_env_vars cr).map Prod.fst ↔ cr.token ≠ "") ∧
    ("ARM_USE_OIDC" ∈ (set_terraform_env_vars cr).map Prod.fst ↔ cr.token ≠ "") := by
  by_cases h1 : cr.client_id = "" <;> by_cases h2 : cr.client_secret = "" <;>
    by_cases h3 : cr.token = "" <;>
    simp [set_terraform_env_vars, h1, h2, h3]

/-- Witness for C9 at a credential with a token and no secret. -/
theorem c9_env_projection_witness :
    ("ARM_SUBSCRIPTION_ID", "sub") ∈ set_terraform_env_vars credW ∧
    "ARM_USE_OIDC" ∈ (set_terraform_env_vars credW).map Prod.fst ∧
    ¬ "ARM_CLIENT_SECRET" ∈ (set_terraform_env_vars credW).map Prod.fst :=
  ⟨(c9_env_projection credW).1,
   (c9_env_projection credW).2.2.2.2.2.mpr (by decide),
   fun hmem => by
    have := (c9_env_projection credW).2.2.2.1.mp hmem
    exact this (by decide)⟩

/-- Dry-run run_command always returns exit code 0. -/
theorem run_command_dry_zero (tfdir : String) (ex : Exec) (cmd : List String) :
    (run_command true tfdir ex cmd).1.return_code = 0 := rfl

/-- Dry-run TerraformRunner.run always returns exit code 0. -/
theorem run_dry_zero (tp : String) (c : ActionConfig) (ex : Exec) :
    (TerraformRunner.run tp c true ex).result.return_code = 0 := by
  unfold TerraformRunner.run
  split <;> simp [run_command]

/-- C3: whenever the workspace-selection prerequisite command exits
non-zero, TerraformRunner.run returns exactly that workspace result as
its final result and never builds or executes the main operation's
argument vector (mainStep is none and only the workspace spawns occur). -/
theorem c3_workspace_failure_aborts (tp : String) (c : ActionConfig) (dry : Bool)
    (ex : Exec) (hw1 : c.workspace ≠ "") (hw2 : c.workspace ≠ "default")
    (hfail :
      (run_command dry c.tf_directory ex (build_workspace_command tp c)).1.return_code ≠ 0) :
    TerraformRunner.run tp c dry ex =
      { workspaceStep := some (build_workspace_command tp c,
          (run_command dry c.tf_directory ex (build_workspace_command tp c)).1)
        mainStep := none
        result := (run_command dry c.tf_directory ex (build_workspace_command tp c)).1
        spawns := (run_command dry c.tf_directory ex (build_workspace_command tp c)).2 } := by
  simp only [TerraformRunner.run]
  rw [if_pos (by simp [hw1, hw2]), if_pos hfail]

/-- Witness for C3: workspace "staging" with a failing executor in real
mode aborts with the workspace result and mainStep none. -/
theorem c3_workspace_failure_aborts_witness :
    TerraformRunner.run "terraform" cfgStag false failExec2 =
      { workspaceStep := some (build_workspace_command "terraform" cfgStag,
          (run_command false cfgStag.tf_directory failExec2
            (build_workspace_command "terraform" cfgStag)).1)
        mainStep := none
        result := (run_command false cfgStag.tf_directory failExec2
          (build_workspace_command "terraform" cfgStag)).1
        spawns := (run_command false cfgStag.tf_directory failExec2
          (build_workspace_command "terraform" cfgStag)).2 } :=
  c3_workspace_failure_aborts "terraform" cfgStag false failExec2
    (by decide) (by decide) (by decide)

/-- C4 counterexample: the configuration with the empty workspace name
passes validation and its workspace differs from "default", yet no
workspace-selection command is issued, refuting the claimed "if and
only if". -/
theorem c4_counterexample :
    ActionConfig.validate { workspace := "" } = [] ∧
    ¬ (((TerraformRunner.run "terraform" { workspace := "" } true zeroExec).workspaceStep.isSome
          = true) ↔
        ({ workspace := "" } : ActionConfig).workspace ≠ "default") := by
  decide

/-- C4 amended: the workspace select-or-create command is issued if and
only if the configured workspace name is non-empty and differs from
"default"; when issued, the command names the configured workspace. -/
theorem c4_workspace_command_iff (tp : String) (c : ActionConfig) (dry : Bool) (ex : Exec) :
    ((TerraformRunner.run tp c dry ex).workspaceStep.isSome = true ↔
      (c.workspace ≠ "" ∧ c.workspace ≠ "default")) ∧
    (∀ wcmd wres, (TerraformRunner.run tp c dry ex).workspaceStep = some (wcmd, wres) →
      wcmd = [tp, "workspace", "select", "-or-create=true", c.workspace]) := by
  by_cases h1 : c.workspace = ""
  · simp [TerraformRunner.run, h1]
  · by_cases h2 : c.workspace = "default"
    · simp [TerraformRunner.run, h2]
    · simp only [TerraformRunner.run]
      rw [if_pos (by simp [h1, h2])]
      constructor
      · split <;> simp [h1, h2]
      · intro wcmd wres hw
        split at hw <;>
          (simp only [RunTrace.mk.injEq, Option.some.injEq, Prod.mk.injEq] at hw
           exact hw.1.symm)

/-- Witness for C4: workspace "staging" issues the select-or-create
command naming "staging". -/
theorem c4_workspace_command_iff_witness :
    (TerraformRunner.run "terraform" cfgStag true zeroExec).workspaceStep.isSome = true :=
  (c4_workspace_command_iff "terraform" cfgStag true zeroExec).1.mpr
    ⟨by decide, by decide⟩

/-- On a config-loading ValueError, main returns exit code 1 with no
outputs and no spawns. -/
theorem mainWith_load_error (dry : Bool) (tool : Option String) (ex : Exec) (e : Env)
    (m : String) (hload : load_config_from_env e = .error m) :
    mainWith dry tool ex e = { exitCode := 1, outputs := [], spawns := [] } := by
  simp only [mainWith, hload]

/-- On validation errors, main returns exit code 1 with no outputs and
no spawns. -/
theorem mainWith_invalid (dry : Bool) (tool : Option String) (ex : Exec) (e : Env)
    (c : ActionConfig) (hload : load_config_from_env e = .ok c)
    (hval : c.validate ≠ []) :
    mainWith dry tool ex e = { exitCode := 1, outputs := [], spawns := [] } := by
  simp only [mainWith, hload]
  rw [if_pos hval]

/-- When the tool lookup fails, main catches the RuntimeError, writes
the dry-run notice outputs, spawns nothing and returns exit code 0. -/
theorem mainWith_tool_missing (dry : Bool) (tool : Option String) (ex : Exec) (e : Env)
    (c : ActionConfig) (m : String) (hload : load_config_from_env e = .ok c)
    (hval : c.validate = []) (hfind : find_terraform tool = .error m) :
    mainWith dry tool ex e =
      { exitCode := 0
        outputs := [("plan_output", "Terraform not installed - dry run mode"),
                    ("state_summary", "No state changes (dry run)")]
        spawns := [] } := by
  simp only [mainWith, hload]
  rw [if_neg (by simp [hval])]
  simp only [hfind]

/-- With a valid config and a located tool, main's outcome is built
from the run trace: result code propagated when non-zero, else 0. -/
theorem mainWith_ok (dry : Bool) (tool : Option String) (ex : Exec) (e : Env)
    (c : ActionConfig) (tp : String) (hload : load_config_from_env e = .ok c)
    (hval : c.validate = []) (hfind : find_terraform tool = .ok tp) :
    mainWith dry tool ex e =
      { exitCode := if (TerraformRunner.run tp c dry ex).result.return_code ≠ 0
          then (TerraformRunner.run tp c dry ex).result.return_code else 0
        outputs := [("plan_output", (TerraformRunner.run tp c dry ex).result.stdout),
          ("state_summary",
            "Exit code: " ++ toString (TerraformRunner.run tp c dry ex).result.return_code)]
        spawns := (TerraformRunner.run tp c dry ex).spawns } := by
  simp only [mainWith, hload]
  rw [if_neg (by simp [hval])]
  simp only [hfind]

/-- C1: main's exit code is 1 on a config-parsing ValueError and 1 on
validation errors; it is 0 when the located tool's run returns code 0,
0 always in Simulated (dry-run) mode, 0 when the tool is missing and
the dry-run notice path completes, and otherwise it equals, unchanged,
the failing run's exit code. -/
theorem c1_exit_code_contract (dry : Bool) (tool : Option String) (ex : Exec) (e : Env) :
    (∀ m, load_config_from_env e = .error m → (mainWith dry tool ex e).exitCode = 1) ∧
    (∀ c, load_config_from_env e = .ok c → c.validate ≠ [] →
      (mainWith dry tool ex e).exitCode = 1) ∧
    (∀ c m, load_config_from_env e = .ok c → c.validate = [] →
      find_terraform tool = .error m → (mainWith dry tool ex e).exitCode = 0) ∧
    (∀ c tp, load_config_from_env e = .ok c → c.validate = [] →
      find_terraform tool = .ok tp →
      (TerraformRunner.run tp c dry ex).result.return_code = 0 →
      (mainWith dry tool ex e).exitCode = 0) ∧
    (∀ c tp, load_config_from_env e = .ok c → c.validate = [] →
      find_terraform tool = .ok tp → dry = true →
      (mainWith dry tool ex e).exitCode = 0) ∧
    (∀ c tp, load_config_from_env e = .ok c → c.validate = [] →
      find_terraform tool = .ok tp →
      (TerraformRunner.run tp c dry ex).result.return_code ≠ 0 →
      (mainWith dry tool ex e).exitCode =
        (TerraformRunner.run tp c dry ex).result.return_code) := by
  refine ⟨fun m hm => ?_, fun c hc hv => ?_, fun c m hc hv hf => ?_,
    fun c tp hc hv hf hz => ?_, fun c tp hc hv hf hdry => ?_, fun c tp hc hv hf hnz => ?_⟩
  · rw [mainWith_load_error dry tool ex e m hm]
  · rw [mainWith_invalid dry tool ex e c hc hv]
  · rw [mainWith_tool_missing dry tool ex e c m hc hv hf]
  · rw [mainWith_ok dry tool ex e c tp hc hv hf]
    simp [hz]
  · subst hdry
    rw [mainWith_ok true tool ex e c tp hc hv hf]
    simp [run_dry_zero]
  · rw [mainWith_ok dry tool ex e c tp hc hv hf]
    simp [hnz]

/-- Witness for C1: with the default config, a located tool and a real
executor failing with exit code 2, main's exit code equals the run's
exit code. -/
theorem c1_exit_code_contract_witness :
    (mainWith false (some "terraform") failExec2 noEnv).exitCode =
      (TerraformRunner.run "terraform" {} false failExec2).result.return_code :=
  (c1_exit_code_contract false (some "terraform") failExec2 noEnv).2.2.2.2.2 {} "terraform"
    (by decide) (by decide) rfl (by decide)

/-- C2 counterexample: with a valid default configuration and the tool
absent, the runner lookup raises the tool-not-found error, yet main
returns exit code 0 and reports dry-run completion, so the run does
report success when the tool cannot be located. -/
theorem c2_counterexample :
    load_config_from_env noEnv = .ok {} ∧
    ActionConfig.validate {} = [] ∧
    find_terraform none =
      .error ("Terraform binary not found in PATH. " ++
        "Please ensure Terraform is installed.") ∧
    (mainWith true none zeroExec noEnv).exitCode = 0 ∧
    (mainWith true none zeroExec noEnv).outputs =
      [("plan_output", "Terraform not installed - dry run mode"),
       ("state_summary", "No state changes (dry run)")] := by
  refine ⟨by decide, by decide, rfl, by decide, by decide⟩

/-- C2 amended: when the external tool cannot be located, the runner
lookup fails with the tool-not-found RuntimeError before any command is
built, but main catches it, writes dry-run notice outputs, spawns
nothing and returns exit code 0 (reports success) instead of failing. -/
theorem c2_tool_not_found_reports_success (dry : Bool) (ex : Exec) (e : Env)
    (c : ActionConfig) (hload : load_config_from_env e = .ok c)
    (hval : c.validate = []) :
    find_terraform none =
      .error ("Terraform binary not found in PATH. " ++
        "Please ensure Terraform is installed.") ∧
    mainWith dry none ex e =
      { exitCode := 0
        outputs := [("plan_output", "Terraform not installed - dry run mode"),
                    ("state_summary", "No state changes (dry run)")]
        spawns := [] } :=
  ⟨rfl, mainWith_tool_missing dry none ex e c _ hload hval rfl⟩

/-- Witness for C2 amended at the default environment. -/
theorem c2_tool_not_found_reports_success_witness :
    find_terraform none =
      .error ("Terraform binary not found in PATH. " ++
        "Please ensure Terraform is installed.") ∧
    mainWith true none zeroExec noEnv =
      { exitCode := 0
        outputs := [("plan_output", "Terraform not installed - dry run mode"),
                    ("state_summary", "No state changes (dry run)")]
        spawns := [] } :=
  c2_tool_not_found_reports_success true zeroExec noEnv {} (by decide) (by decide)

/-- Every spawn performed by run_command passes no env mapping. -/
theorem run_command_spawns_none (dry : Bool) (tfdir : String) (ex : Exec)
    (cmd : List String) :
    ∀ s ∈ (run_command dry tfdir ex cmd).2, s.envMapping = none := by
  unfold run_command
  split <;> simp

/-- Every spawn performed by TerraformRunner.run passes no env mapping. -/
theorem run_spawns_none (tp : String) (c : ActionConfig) (dry : Bool) (ex : Exec) :
    ∀ s ∈ (TerraformRunner.run tp c dry ex).spawns, s.envMapping = none := by
  simp only [TerraformRunner.run]
  split
  · split
    · exact fun s hs => run_command_spawns_none _ _ _ _ s hs
    · intro s hs
      rcases List.mem_append.mp hs with h | h
      · exact run_command_spawns_none _ _ _ _ s h
      · exact run_command_spawns_none _ _ _ _ s h
  · exact fun s hs => run_command_spawns_none _ _ _ _ s hs

/-- Every spawn performed by main passes no env mapping. -/
theorem mainWith_spawns_none (dry : Bool) (tool : Option String) (ex : Exec) (e : Env) :
    ∀ s ∈ (mainWith dry tool ex e).spawns, s.envMapping = none := by
  rcases hl : load_config_from_env e with m | c
  · simp [mainWith_load_error dry tool ex e m hl]
  · by_cases hv : c.validate = []
    · rcases hf : find_terraform tool with m | tp
      · simp [mainWith_tool_missing dry tool ex e c m hl hv hf]
      · intro s hs
        rw [mainWith_ok dry tool ex e c tp hl hv hf] at hs
        exact run_spawns_none tp c dry ex s hs
    · simp [mainWith_invalid dry tool ex e c hl hv]

/-- C10: main's observable outcome is independent of the ambient
credential state: two environments that agree outside the
credential-signal variables yield identical outcomes (same built
commands, outputs and exit code), and every child process main can
spawn is spawned without an explicit environment mapping; the
credential resolver's authenticate and projection are never on this
path. -/
theorem c10_credential_noninterference (dry : Bool) (tool : Option String) (ex : Exec)
    (e1 e2 : Env) (h : ∀ k, k ∉ credKeys → e1 k = e2 k) :
    mainWith dry tool ex e1 = mainWith dry tool ex e2 ∧
    ∀ s ∈ (mainWith dry tool ex e1).spawns, s.envMapping = none := by
  have hload : load_config_from_env e1 = load_config_from_env e2 := by
    have h1 := h ("INPUT_" ++ "AZURE_SUBSCRIPTION_ID") (by decide)
    have h2 := h ("INPUT_" ++ "AZURE_TENANT_ID") (by decide)
    have h3 := h ("INPUT_" ++ "AZURE_CLIENT_ID") (by decide)
    have h4 := h ("INPUT_" ++ "COMMAND") (by decide)
    have h5 := h ("INPUT_" ++ "TF_DIRECTORY") (by decide)
    have h6 := h ("INPUT_" ++ "TFVARS_FILES") (by decide)
    have h7 := h ("INPUT_" ++ "BACKEND_CONFIG_FILE") (by decide)
    have h8 := h ("INPUT_" ++ "WORKSPACE") (by decide)
    have h9 := h ("INPUT_" ++ "VAR_OVERRIDES") (by decide)
    have h10 := h ("INPUT_" ++ "LOG_LEVEL") (by decide)
    simp only [load_config_from_env, getInput, h1, h2, h3, h4, h5, h6, h7, h8, h9, h10]
  exact ⟨by simp only [mainWith, hload], mainWith_spawns_none dry tool ex e1⟩

/-- Witness for C10: the all-unset environment and the environment
carrying a service-principal secret produce identical main outcomes. -/
theorem c10_credential_noninterference_witness :
    mainWith true (some "terraform") zeroExec noEnv =
      mainWith true (some "terraform") zeroExec secretEnv :=
  (c10_credential_noninterference true (some "terraform") zeroExec noEnv secretEnv
    (fun k hk => by
      have hne : k ≠ "ARM_CLIENT_SECRET" := fun he => hk (by rw [he]; decide)
      simp [noEnv, secretEnv, hne])).1

end AVM

example : AVM.load_config_from_env (fun _ => none) = .ok {} := by decide

section
open AVM

example :
    (TerraformRunner.run "terraform" { workspace := "staging" } true zeroExec).result.return_code
      = 0 := by decide

example :
    (TerraformRunner.run "terraform" { workspace := "staging" } false failExec2).mainStep
      = none := by decide

example : (mainShipped none zeroExec noEnv).exitCode = 0 := by decide

example :
    (mainShipped (some "terraform") zeroExec noEnv).outputs.head?.map Prod.snd =
      some "[DRY RUN] Would execute: terraform plan -input=false" := by decide

example :
    build_plan_command "terraform"
      { tfvars_files := ["dev.tfvars", "common.tfvars"], var_overrides := [("env", "dev")] }
      none =
      ["terraform", "plan", "-input=false", "-var-file=dev.tfvars",
       "-var-file=common.tfvars", "-var=env=dev"] := by decide

end

example :
    AVM.parseVarOverrides "env=dev, region = eu\nenv=prod" =
      [("env", "prod"), ("region", "eu")] := by decide

example : AVM.parseTfvarsFiles " a.tfvars , ,b.tfvars" = ["a.tfvars", "b.tfvars"] := by
  decide

example : AVM.parseCommand " PLAN " = .ok .plan := by decide

example : (AVM.ActionConfig.validate { workspace := "my ws" }) ≠ [] := by decide

example : (AVM.ActionConfig.validate { workspace := "" }) = [] := by decide
